import Mathlib

/-!
Verification of the enable-ai-sdk monitoring core against its specification.

The Python source (src/enable_ai_sdk/agent_monitor.py and
src/enable_ai_sdk/client.py) is shallowly embedded below.  Conventions:

* Python floats that only ever undergo addition and halving of scores are
  modelled as rationals; the sequences of operations compared here are
  identical on both sides, so equalities and inequalities transfer.
* Network calls are modelled by passing the outcome of the call as an
  explicit argument: `none` stands for a raised exception
  (connection error / timeout), `some r` for a response object with the
  given fields.  Code that wraps a call in try/except and absorbs the
  exception becomes a total function over such an `Option`.
* Python truthiness tests (`if result.get(k):`) are modelled explicitly:
  a numeric field is truthy when present and nonzero, a string field when
  present and nonempty.
* Dates are modelled as natural numbers (one per calendar day), wall-clock
  times as rationals (seconds).
* `random.random()` draws are passed in as an explicit rational in [0,1).
-/

namespace EnableAI

/-- Sampling configuration (the `sampling_config` dict of the Python
source, with the defaults used by `config.get`). -/
structure SamplingConfig where
  rate : ℚ
  batch_size : Nat
  max_daily_samples : Nat
  performance_threshold : ℚ
deriving DecidableEq

/-- `get_default_sampling_config` of agent_monitor.py. -/
def get_default_sampling_config : SamplingConfig :=
  { rate := 1/20
    batch_size := 100
    max_daily_samples := 1000
    performance_threshold := 70 }

/-- One interaction record, as built by `_handle_sampled_reporting`. -/
structure Interaction where
  agent_id : String
  prompt : String
  response : String
  response_time_ms : Nat
deriving DecidableEq

/-- State of `SamplingManager`.  The field `average_score` models the
Python attribute probed by `hasattr(self, 'average_score')` in
`should_sample`: `none` means the attribute is absent.  The SDK itself
never assigns this attribute on a `SamplingManager` instance, so within
the SDK it is always `none`. -/
structure SamplingManager where
  config : SamplingConfig
  batch_queue : List Interaction
  daily_sample_count : Nat
  last_reset_date : Nat
  average_score : Option ℚ
deriving DecidableEq

/-- `SamplingManager.__init__`. -/
def SamplingManager.init (config : SamplingConfig) (today : Nat) : SamplingManager :=
  { config := config
    batch_queue := []
    daily_sample_count := 0
    last_reset_date := today
    average_score := none }

/-- The draw comparison of `should_sample`: when the manager carries an
`average_score` attribute below the threshold the enhanced (doubled) rate
is used, otherwise the configured rate. -/
def SamplingManager.effective_draw_ok (m : SamplingManager) (draw : ℚ) : Bool :=
  match m.average_score with
  | some avg =>
    if avg < m.config.performance_threshold then
      decide (draw < m.config.rate * 2)
    else decide (draw < m.config.rate)
  | none => decide (draw < m.config.rate)

/-- `SamplingManager.should_sample`.  `current_date` is the value of
`datetime.now().date()` and `draw` that of `random.random()` at the call.
Returns the boolean result together with the mutated manager. -/
def SamplingManager.should_sample (m : SamplingManager) (current_date : Nat)
    (draw : ℚ) : Bool × SamplingManager :=
  let m := if current_date ≠ m.last_reset_date then
      { m with daily_sample_count := 0, last_reset_date := current_date }
    else m
  if m.config.max_daily_samples ≤ m.daily_sample_count then (false, m)
  else if m.effective_draw_ok draw then
    (true, { m with daily_sample_count := m.daily_sample_count + 1 })
  else (false, m)

/-- `SamplingManager.add_to_batch`: append, then signal a flush when the
queue length has reached `batch_size`. -/
def SamplingManager.add_to_batch (m : SamplingManager) (x : Interaction) :
    Bool × SamplingManager :=
  let m := { m with batch_queue := m.batch_queue ++ [x] }
  (decide (m.config.batch_size ≤ m.batch_queue.length), m)

/-- `SamplingManager.get_batch`: return the queued records and clear the
queue. -/
def SamplingManager.get_batch (m : SamplingManager) :
    List Interaction × SamplingManager :=
  (m.batch_queue, { m with batch_queue := [] })

/-- Iterate `add_to_batch` over a list of records, collecting the
returned flush signals. -/
def run_batch_adds : SamplingManager → List Interaction →
    List Bool × SamplingManager
  | m, [] => ([], m)
  | m, x :: xs =>
    let p := m.add_to_batch x
    let q := run_batch_adds p.2 xs
    (p.1 :: q.1, q.2)

theorem run_batch_adds_queue (xs : List Interaction) :
    ∀ m : SamplingManager,
      (run_batch_adds m xs).2.batch_queue = m.batch_queue ++ xs ∧
      (run_batch_adds m xs).2.config = m.config := by
  induction xs with
  | nil => intro m; simp [run_batch_adds]
  | cons x xs ih =>
    intro m
    have h := ih ((m.add_to_batch x).2)
    simp only [run_batch_adds]
    refine ⟨?_, ?_⟩
    · rw [h.1]
      simp [SamplingManager.add_to_batch]
    · rw [h.2]
      simp [SamplingManager.add_to_batch]

theorem run_batch_adds_outputs (xs : List Interaction) :
    ∀ m : SamplingManager, xs ≠ [] →
      m.batch_queue.length + xs.length = m.config.batch_size →
      (run_batch_adds m xs).1 =
        List.replicate (xs.length - 1) false ++ [true] := by
  induction xs with
  | nil => intro m h; exact absurd rfl h
  | cons x xs ih =>
    intro m _ hlen
    simp only [run_batch_adds]
    have hq : (m.add_to_batch x).2.batch_queue.length =
        m.batch_queue.length + 1 := by
      simp [SamplingManager.add_to_batch]
    have hc : (m.add_to_batch x).2.config = m.config := by
      simp [SamplingManager.add_to_batch]
    cases xs with
    | nil =>
      have hb : (m.add_to_batch x).1 = true := by
        simp only [SamplingManager.add_to_batch]
        simp only [List.length_cons, List.length_nil] at hlen
        simp [List.length_append]
        omega
      simp [run_batch_adds, hb]
    | cons y ys =>
      have hb : (m.add_to_batch x).1 = false := by
        simp only [SamplingManager.add_to_batch]
        simp only [List.length_cons] at hlen
        simp [List.length_append]
        omega
      have hrec := ih ((m.add_to_batch x).2) (by simp)
        (by rw [hq, hc]; simp only [List.length_cons] at hlen ⊢; omega)
      rw [hb, hrec]
      simp [List.replicate_succ]

theorem effective_draw_ok_of_rate_one (m : SamplingManager) (r : ℚ)
    (hrate : m.config.rate = 1) (h1 : r < 1) :
    m.effective_draw_ok r = true := by
  unfold SamplingManager.effective_draw_ok
  rw [hrate]
  cases m.average_score with
  | none => simpa using h1
  | some avg =>
    by_cases h : avg < m.config.performance_threshold
    · simp only [h, if_true, decide_eq_true_eq]
      linarith
    · simpa [h] using h1

/-- C6: with `rate = 1.0` and a draw in [0,1), `should_sample` returns
true exactly while the (date-reset-adjusted) daily counter is below
`max_daily_samples`, increments the counter on a sample, stamps the
current date, and with `max_daily_samples = 0` never returns true. -/
theorem C6_rate_one_daily_budget (m : SamplingManager) (d : Nat) (r : ℚ)
    (hrate : m.config.rate = 1) (h1 : r < 1) :
    ((m.should_sample d r).1 = true ↔
      (if d = m.last_reset_date then m.daily_sample_count else 0) <
        m.config.max_daily_samples) ∧
    (m.should_sample d r).2.daily_sample_count =
      (if (if d = m.last_reset_date then m.daily_sample_count else 0) <
          m.config.max_daily_samples
       then (if d = m.last_reset_date then m.daily_sample_count else 0) + 1
       else (if d = m.last_reset_date then m.daily_sample_count else 0)) ∧
    (m.should_sample d r).2.last_reset_date = d ∧
    (m.should_sample d r).2.config = m.config ∧
    (m.config.max_daily_samples = 0 → (m.should_sample d r).1 = false) := by
  by_cases hd : d = m.last_reset_date
  · have hdr : ¬ d ≠ m.last_reset_date := by simpa using hd
    have hdraw := effective_draw_ok_of_rate_one m r hrate h1
    by_cases hc : m.config.max_daily_samples ≤ m.daily_sample_count
    · simp only [SamplingManager.should_sample, hdr, if_neg, ite_false, hc,
        if_pos, ite_true, hd]
      simp [hc]
      split_ifs <;> omega
    · simp only [SamplingManager.should_sample, hdr, if_neg, ite_false, hc,
        ite_true, hd, hdraw]
      simp [hc, hdraw]
      split_ifs <;> omega
  · have hdr : d ≠ m.last_reset_date := hd
    by_cases hc : m.config.max_daily_samples = 0
    · simp [SamplingManager.should_sample, hdr, hc, hd]
    · have h0 : ¬ m.config.max_daily_samples ≤ 0 := by omega
      have hdraw :
          ({ m with daily_sample_count := 0, last_reset_date := d } :
            SamplingManager).effective_draw_ok r = true :=
        effective_draw_ok_of_rate_one _ r hrate h1
      simp [SamplingManager.should_sample, hdr, hd, h0, hdraw]
      split_ifs <;> omega

/-- C6 witness: a concrete manager with rate 1, a budget of 2 and one
sample already taken on the current date still samples. -/
def c6_manager : SamplingManager :=
  { config :=
      { rate := 1, batch_size := 100, max_daily_samples := 2
        performance_threshold := 70 }
    batch_queue := []
    daily_sample_count := 1
    last_reset_date := 0
    average_score := none }

theorem C6_rate_one_daily_budget_witness :
    (1:ℚ)/2 < 1 ∧ (c6_manager.should_sample 0 (1/2)).1 = true :=
  ⟨by norm_num,
    (C6_rate_one_daily_budget c6_manager 0 (1/2) rfl (by norm_num)).1.mpr
      (by decide)⟩

/-- C7: starting from an empty batch, feeding `batch_size` records makes
`add_to_batch` return false on every call but the last, which returns
true; `get_batch` then returns exactly the appended records in order and
leaves the queue empty. -/
theorem C7_batch_flush_signal (m : SamplingManager) (xs : List Interaction)
    (hq : m.batch_queue = []) (hpos : 0 < xs.length)
    (hlen : xs.length = m.config.batch_size) :
    (run_batch_adds m xs).1 = List.replicate (xs.length - 1) false ++ [true] ∧
    (run_batch_adds m xs).2.batch_queue = xs ∧
    ((run_batch_adds m xs).2.get_batch).1 = xs ∧
    ((run_batch_adds m xs).2.get_batch).2.batch_queue = [] := by
  have hne : xs ≠ [] := by
    cases xs with
    | nil => simp at hpos
    | cons y ys => simp
  have h1 := run_batch_adds_outputs xs m hne (by rw [hq]; simpa using hlen)
  have h2 := (run_batch_adds_queue xs m).1
  rw [hq] at h2
  simp only [List.nil_append] at h2
  exact ⟨h1, h2, by simp [SamplingManager.get_batch, h2],
    by simp [SamplingManager.get_batch]⟩

/-- A concrete manager with batch size 3 for the C7 witness. -/
def c7_manager : SamplingManager :=
  SamplingManager.init
    { rate := 1/20, batch_size := 3, max_daily_samples := 1000
      performance_threshold := 70 } 0

/-- A concrete interaction record. -/
def sample_interaction (n : Nat) : Interaction :=
  { agent_id := "agent-1", prompt := "p", response := "r"
    response_time_ms := n }

theorem C7_batch_flush_signal_witness :
    (run_batch_adds c7_manager
      [sample_interaction 1, sample_interaction 2, sample_interaction 3]).1 =
      [false, false, true] ∧
    ((run_batch_adds c7_manager
      [sample_interaction 1, sample_interaction 2,
        sample_interaction 3]).2.get_batch).1 =
      [sample_interaction 1, sample_interaction 2, sample_interaction 3] := by
  have h := C7_batch_flush_signal c7_manager
    [sample_interaction 1, sample_interaction 2, sample_interaction 3]
    rfl (by decide) rfl
  exact ⟨h.1, h.2.2.1⟩

/-! ### Monitor core (AgentMonitor of agent_monitor.py) -/

/-- Python truthiness of an optional string field of a JSON response:
falsy when absent or empty. -/
def strTruthy : Option String → Bool
  | none => false
  | some s => s != ""

/-- Python truthiness of an optional numeric field of a JSON response:
falsy when absent or zero. -/
def qTruthy : Option ℚ → Bool
  | none => false
  | some q => q != 0

/-- State of an `AgentMonitor` instance (the mutable attributes set in
`__init__` that the claims concern). -/
structure AgentMonitor where
  agent_id : String
  auto_healing : Bool
  report_async : Bool
  system_prompt : Option String
  enable_sampling : Bool
  sampling_manager : Option SamplingManager
  interaction_count : Nat
  average_score : ℚ
  last_healing_check : Option ℚ
deriving DecidableEq

/-- `AgentMonitor.__init__`: counters start at zero, the average at 0.0,
no healing check recorded; the sampling manager is created only when
sampling is enabled, from the given config or the default one. -/
def AgentMonitor.init (agent_id : String) (auto_healing report_async : Bool)
    (system_prompt : Option String) (enable_sampling : Bool)
    (sampling_config : Option SamplingConfig) (today : Nat) : AgentMonitor :=
  { agent_id := agent_id
    auto_healing := auto_healing
    report_async := report_async
    system_prompt := system_prompt
    enable_sampling := enable_sampling
    sampling_manager :=
      if enable_sampling then
        some (SamplingManager.init
          (sampling_config.getD get_default_sampling_config) today)
      else none
    interaction_count := 0
    average_score := 0
    last_healing_check := none }

/-- Response of POST `/agent/external/performance`. -/
structure PerfResponse where
  status_code : Nat
  quality_score : Option ℚ
deriving DecidableEq

/-- `AgentMonitor._report_performance`.  The argument is the outcome of
the POST: `none` models a raised exception (caught by the except block),
`some r` a response.  On HTTP 201 the interaction counter is incremented
and, when the returned `quality_score` is truthy, folded into the
running average (seeding it when the average is still 0). -/
def AgentMonitor.report_performance (m : AgentMonitor)
    (resp : Option PerfResponse) : Bool × AgentMonitor :=
  match resp with
  | none => (false, m)
  | some r =>
    if r.status_code = 201 then
      let m := { m with interaction_count := m.interaction_count + 1 }
      let m :=
        if qTruthy r.quality_score then
          let score := r.quality_score.getD 0
          if m.average_score = 0 then { m with average_score := score }
          else { m with average_score := (m.average_score + score) / 2 }
        else m
      (true, m)
    else (false, m)

/-- Response of POST `/agent/external/performance/batch`. -/
structure BatchResponse where
  status_code : Nat
  average_score : Option ℚ
deriving DecidableEq

/-- `AgentMonitor._send_batch`: drain the batch queue; an empty batch is
not posted; on HTTP 201 with a truthy `average_score` the running
average is overwritten; every failure is absorbed. -/
def AgentMonitor.send_batch (m : AgentMonitor) (resp : Option BatchResponse) :
    AgentMonitor :=
  match m.sampling_manager with
  | none => m
  | some sm =>
    let batch := (sm.get_batch).1
    let m := { m with sampling_manager := some (sm.get_batch).2 }
    if batch.isEmpty then m
    else
      match resp with
      | none => m
      | some r =>
        if r.status_code = 201 then
          if qTruthy r.average_score then
            { m with average_score := r.average_score.getD 0 }
          else m
        else m

/-- `AgentMonitor._handle_sampled_reporting`: ask the sampling manager
whether to sample, batch the record when sampled, flush a full batch,
and increment the interaction counter unconditionally. -/
def AgentMonitor.handle_sampled_reporting (m : AgentMonitor)
    (x : Interaction) (today : Nat) (draw : ℚ)
    (batch_resp : Option BatchResponse) : AgentMonitor :=
  match m.sampling_manager with
  | none => { m with interaction_count := m.interaction_count + 1 }
  | some sm =>
    let p := sm.should_sample today draw
    let m := { m with sampling_manager := some p.2 }
    let m :=
      if p.1 then
        let q := p.2.add_to_batch x
        let m := { m with sampling_manager := some q.2 }
        if q.1 then m.send_batch batch_resp else m
      else m
    { m with interaction_count := m.interaction_count + 1 }

/-- Response of POST `/self-healing/scan`: the flagged agents are
represented by their identifiers. -/
structure ScanResponse where
  status_code : Nat
  agents_flagged : List String
deriving DecidableEq

/-- Response of POST `/agent/self_heal`. -/
structure HealResponse where
  status_code : Nat
  prompt_updated : Bool
  suggested_prompt : Option String
deriving DecidableEq

/-- Response of GET `/agent/{id}/prompt`. -/
structure PromptResponse where
  status_code : Nat
  system_prompt : Option String
deriving DecidableEq

/-- Outcomes of the three network calls `_trigger_self_healing` can
make; `none` models a raised exception. -/
structure HealEnv where
  scan : Option ScanResponse
  heal : Option HealResponse
  prompt_fetch : Option PromptResponse

/-- `AgentMonitor._trigger_self_healing`.  Returns the new monitor state
together with two booleans: whether the heal endpoint was called and
whether the prompt-fetch endpoint was called. -/
def AgentMonitor.trigger_self_healing (m : AgentMonitor) (env : HealEnv) :
    AgentMonitor × Bool × Bool :=
  match env.scan with
  | none => (m, false, false)
  | some scan =>
    if scan.status_code ≠ 200 then (m, false, false)
    else if m.agent_id ∈ scan.agents_flagged then
      match env.heal with
      | none => (m, true, false)
      | some heal =>
        if heal.status_code ≠ 200 then (m, true, false)
        else if heal.prompt_updated && m.auto_healing then
          match env.prompt_fetch with
          | none => (m, true, true)
          | some pr =>
            if pr.status_code = 200 && strTruthy pr.system_prompt then
              ({ m with system_prompt := pr.system_prompt }, true, true)
            else (m, true, true)
        else if strTruthy heal.suggested_prompt && !m.auto_healing then
          ({ m with system_prompt := heal.suggested_prompt }, true, false)
        else (m, true, false)
    else (m, false, false)

/-- The Python condition `not self.last_healing_check or
current_time - self.last_healing_check > 300`; a recorded timestamp of
0.0 is falsy and therefore treated like an unset one. -/
def healing_guard_open : Option ℚ → ℚ → Bool
  | none, _ => true
  | some t, now => t == 0 || decide ((300 : ℚ) < now - t)

/-- The condition under which `_check_self_healing` fires a scan. -/
def AgentMonitor.check_self_healing_fires (m : AgentMonitor) (now : ℚ) :
    Bool :=
  m.interaction_count % 10 == 0 && healing_guard_open m.last_healing_check now

/-- `AgentMonitor._check_self_healing`: when the cadence condition holds,
record the time of this check and run the healing workflow. -/
def AgentMonitor.check_self_healing (m : AgentMonitor) (now : ℚ)
    (env : HealEnv) : AgentMonitor :=
  if m.check_self_healing_fires now then
    (({ m with last_healing_check := some now }).trigger_self_healing env).1
  else m

/-- All external outcomes one `generate_response` call can observe. -/
structure MonitorEnv where
  model_result : Except String String
  report : Option PerfResponse
  batch : Option BatchResponse
  heal_env : HealEnv

/-- `AgentMonitor.generate_response`.  The injected model call is the
only fallible step; its failure (including the NotImplementedError of a
missing integration) propagates.  Reporting is then dispatched by the
sampling switch and the healing cadence is checked.  The asynchronous
report path (`report_async = true`) starts a daemon thread running
`_report_performance`; it is modelled here as that report having run to
completion, so both reporting modes perform the same state update. -/
def AgentMonitor.generate_response (m : AgentMonitor) (prompt : String)
    (env : MonitorEnv) (today : Nat) (draw : ℚ) (now : ℚ)
    (response_time_ms : Nat) : Except String (String × AgentMonitor) :=
  match env.model_result with
  | .error e => .error e
  | .ok response =>
    let m :=
      if m.enable_sampling then
        m.handle_sampled_reporting
          { agent_id := m.agent_id, prompt := prompt, response := response
            response_time_ms := response_time_ms } today draw env.batch
      else (m.report_performance env.report).2
    let m := m.check_self_healing now env.heal_env
    .ok (response, m)

/-- Response of the advisory GET endpoints, with its JSON body modelled
as a flat field list. -/
structure GetResponse where
  status_code : Nat
  body : List (String × String)
deriving DecidableEq

/-- `AgentMonitor.get_health_status`: the body on HTTP 200, otherwise an
empty mapping; an exception (`none`) also yields an empty mapping. -/
def AgentMonitor.get_health_status (_m : AgentMonitor)
    (resp : Option GetResponse) : List (String × String) :=
  match resp with
  | none => []
  | some r => if r.status_code = 200 then r.body else []

/-- `AgentMonitor.get_analytics`: same shape as `get_health_status`,
against the analytics endpoint. -/
def AgentMonitor.get_analytics (_m : AgentMonitor)
    (resp : Option GetResponse) : List (String × String) :=
  match resp with
  | none => []
  | some r => if r.status_code = 200 then r.body else []

/-- `AgentMonitor.get_insights`: same shape as `get_health_status`,
against the insights endpoint. -/
def AgentMonitor.get_insights (_m : AgentMonitor)
    (resp : Option GetResponse) : List (String × String) :=
  match resp with
  | none => []
  | some r => if r.status_code = 200 then r.body else []

/-- A monitor as constructed by the SDK with sampling disabled and
synchronous reporting. -/
def mon0 : AgentMonitor :=
  AgentMonitor.init "agent-1" true false none false none 0

/-- Feed a sequence of successful single-interaction reports (HTTP 201,
each carrying the given quality score) through `_report_performance`. -/
def AgentMonitor.run_reports (m : AgentMonitor) (scores : List ℚ) :
    AgentMonitor :=
  scores.foldl
    (fun m s =>
      (m.report_performance (some { status_code := 201, quality_score := some s })).2)
    m

/-- The running-average fold as the spec words it: seeded by the first
score, thereafter halving the sum of old average and incoming score. -/
def spec_average_fold : List ℚ → ℚ
  | [] => 0
  | s :: rest => rest.foldl (fun a t => (a + t) / 2) s

theorem run_reports_avg_of_pos (scores : List ℚ) :
    ∀ m : AgentMonitor, 0 < m.average_score → (∀ t ∈ scores, 0 < t) →
      (m.run_reports scores).average_score =
        scores.foldl (fun a t => (a + t) / 2) m.average_score := by
  induction scores with
  | nil => intro m _ _; rfl
  | cons s rest ih =>
    intro m hm hs
    have hspos : 0 < s := hs s (List.mem_cons_self _ _)
    have hstep : (m.report_performance
        (some { status_code := 201, quality_score := some s })).2 =
        { m with interaction_count := m.interaction_count + 1
                 average_score := (m.average_score + s) / 2 } := by
      simp [AgentMonitor.report_performance, qTruthy, hspos.ne', hm.ne']
    have hrun : m.run_reports (s :: rest) =
        ({ m with interaction_count := m.interaction_count + 1
                  average_score := (m.average_score + s) / 2 } :
          AgentMonitor).run_reports rest := by
      simp [AgentMonitor.run_reports, hstep]
    rw [hrun, ih _ (by simpa using by positivity)
      (fun t ht => hs t (List.mem_cons_of_mem _ ht))]
    simp

/-- C1 counterexample: a received quality score of 0 is falsy in Python
and skipped by `_report_performance`, so after scores [80, 0] the code
keeps the average at 80 while the spec fold would halve it to 40. -/
theorem C1_counterexample :
    (mon0.run_reports [80, 0]).average_score = 80 ∧
    spec_average_fold [80, 0] = 40 ∧
    (mon0.run_reports [80, 0]).average_score ≠ spec_average_fold [80, 0] := by
  have h1 : (mon0.run_reports [80, 0]).average_score = 80 := by
    norm_num [mon0, AgentMonitor.init, AgentMonitor.run_reports,
      AgentMonitor.report_performance, qTruthy]
  have h2 : spec_average_fold [80, 0] = 40 := by
    norm_num [spec_average_fold]
  exact ⟨h1, h2, by rw [h1, h2]; norm_num⟩

/-- C1 (amended): for every sequence of nonzero — hence, scores lying in
0–100, positive — quality scores received via successful
single-interaction reports, the running `average_score` of a monitor
whose average starts at 0 equals the spec fold avg1 = s1,
avgk = (avg(k-1) + sk) / 2; in particular scores [80, 60, 100] produce
the successive averages 80, 70, 85. -/
theorem C1_average_score_fold (m : AgentMonitor) (scores : List ℚ)
    (h0 : m.average_score = 0) (h : ∀ s ∈ scores, 0 < s) :
    (m.run_reports scores).average_score = spec_average_fold scores := by
  cases scores with
  | nil => simpa [AgentMonitor.run_reports, spec_average_fold] using h0
  | cons s rest =>
    have hspos : 0 < s := h s (List.mem_cons_self _ _)
    have hstep : (m.report_performance
        (some { status_code := 201, quality_score := some s })).2 =
        { m with interaction_count := m.interaction_count + 1
                 average_score := s } := by
      simp [AgentMonitor.report_performance, qTruthy, hspos.ne', h0]
    have hrun : m.run_reports (s :: rest) =
        ({ m with interaction_count := m.interaction_count + 1
                  average_score := s } : AgentMonitor).run_reports rest := by
      simp [AgentMonitor.run_reports, hstep]
    rw [hrun, run_reports_avg_of_pos rest _ (by simpa using hspos)
      (fun t ht => h t (List.mem_cons_of_mem _ ht))]
    simp [spec_average_fold]

theorem C1_average_score_fold_witness :
    (mon0.run_reports [80, 60, 100]).average_score = 85 :=
  (C1_average_score_fold mon0 [80, 60, 100] rfl (by decide)).trans
    (by norm_num [spec_average_fold])

/-- The cadence predicate exactly as claim C2 words it: a positive exact
multiple of 10, with at least 300 elapsed seconds or no previous
check. -/
def c2_claimed_fires (count : Nat) (last : Option ℚ) (now : ℚ) : Bool :=
  decide (0 < count) && (count % 10 == 0) &&
    (match last with
     | none => true
     | some t => decide ((300 : ℚ) ≤ now - t))

/-- A monitor at a given interaction count and last-healing-check
time. -/
def mon_at (c : Nat) (last : Option ℚ) : AgentMonitor :=
  { mon0 with interaction_count := c, last_healing_check := last }

/-- C2 counterexample: the code fires at `interaction_count = 0`
(0 % 10 == 0) where the claim forbids it, and stays silent at exactly
300 elapsed seconds where the claim (≥ 5 minutes) requires firing. -/
theorem C2_counterexample :
    (mon_at 0 none).check_self_healing_fires 1000 = true ∧
    c2_claimed_fires 0 none 1000 = false ∧
    (mon_at 10 (some 100)).check_self_healing_fires 400 = false ∧
    c2_claimed_fires 10 (some 100) 400 = true := by
  refine ⟨by decide, by decide, ?_, ?_⟩
  · simp only [mon_at, mon0, AgentMonitor.init,
      AgentMonitor.check_self_healing_fires, healing_guard_open]
    norm_num
  · simp only [c2_claimed_fires]
    norm_num

/-- C2 (amended): the self-healing check triggers a scan exactly when
`interaction_count` is congruent to 0 modulo 10 — including count 0 —
and either no previous check is recorded (a recorded time of 0.0 counts
as unset, being falsy) or strictly more than 300 seconds have
elapsed. -/
theorem C2_cadence (m : AgentMonitor) (now : ℚ) :
    m.check_self_healing_fires now = true ↔
      (m.interaction_count % 10 = 0 ∧
        (m.last_healing_check = none ∨ m.last_healing_check = some 0 ∨
          ∃ t, m.last_healing_check = some t ∧ 300 < now - t)) := by
  unfold AgentMonitor.check_self_healing_fires healing_guard_open
  cases hl : m.last_healing_check with
  | none => simp
  | some t =>
    simp only [Bool.and_eq_true, beq_iff_eq, Bool.or_eq_true,
      decide_eq_true_eq, Option.some.injEq, reduceCtorEq, false_or]
    constructor
    · rintro ⟨h1, h2 | h2⟩
      · exact ⟨h1, Or.inl h2⟩
      · exact ⟨h1, Or.inr ⟨t, rfl, h2⟩⟩
    · rintro ⟨h1, h2 | ⟨u, hu, h3⟩⟩
      · exact ⟨h1, Or.inl h2⟩
      · cases hu; exact ⟨h1, Or.inr h3⟩

theorem C2_cadence_witness :
    (mon_at 20 none).check_self_healing_fires 5 = true :=
  (C2_cadence (mon_at 20 none) 5).mpr ⟨by decide, Or.inl rfl⟩

/-- The sampling manager of a monitor configured with rate 0.1 and
threshold 70, exactly as `SamplingManager.__init__` builds it: its
`average_score` attribute is absent. -/
def c3_manager : SamplingManager :=
  SamplingManager.init
    { rate := 1/10, batch_size := 100, max_daily_samples := 1000
      performance_threshold := 70 } 0

/-- A monitor with sampling enabled whose running average (50) is below
the threshold (70). -/
def c3_monitor : AgentMonitor :=
  { mon0 with enable_sampling := true, average_score := 50
              sampling_manager := some c3_manager }

/-- C3 (code bug): with the monitor average 50 below the threshold 70
and draw 0.15 below the doubled rate 0.2, the interaction is still not
sampled: the SDK never assigns the `average_score` attribute that
`should_sample` probes with `hasattr`, so the draw is compared against
the configured rate 0.1.  The last conjunct shows the doubling branch
would indeed sample this draw had the attribute been set. -/
theorem C3_rate_doubling_unreachable :
    c3_monitor.average_score = 50 ∧
    ((50 : ℚ) < 70) ∧ ((3 : ℚ)/20 < 1/10 * 2) ∧ ¬ ((3 : ℚ)/20 < 1/10) ∧
    c3_manager.average_score = none ∧
    (c3_manager.should_sample 0 (3/20)).1 = false ∧
    (c3_monitor.handle_sampled_reporting (sample_interaction 1) 0 (3/20)
      none).sampling_manager = some c3_manager ∧
    (({ c3_manager with average_score := some 50 } :
      SamplingManager).should_sample 0 (3/20)).1 = true := by
  refine ⟨rfl, by norm_num, by norm_num, by norm_num, rfl, ?_, ?_, ?_⟩
  · norm_num [c3_manager, SamplingManager.init, SamplingManager.should_sample,
      SamplingManager.effective_draw_ok]
  · norm_num [c3_monitor, c3_manager, mon0, AgentMonitor.init,
      AgentMonitor.handle_sampled_reporting, SamplingManager.init,
      SamplingManager.should_sample, SamplingManager.effective_draw_ok]
  · norm_num [c3_manager, SamplingManager.init, SamplingManager.should_sample,
      SamplingManager.effective_draw_ok]

/-- Run `generate_response` once per entry of `reports`, the entry being
the outcome of the performance POST for that call; the model call
succeeds, sampling stays as configured, the healing workflow sees only
failing calls. -/
def AgentMonitor.run_generate (m : AgentMonitor)
    (reports : List (Option PerfResponse)) : AgentMonitor :=
  reports.foldl
    (fun m r =>
      match m.generate_response "p"
        { model_result := .ok "resp", report := r, batch := none
          heal_env := { scan := none, heal := none, prompt_fetch := none } }
        0 0 0 0 with
      | .ok p => p.2
      | .error _ => m)
    m

theorem trigger_self_healing_preserves (m : AgentMonitor) (env : HealEnv) :
    (m.trigger_self_healing env).1.interaction_count = m.interaction_count ∧
    (m.trigger_self_healing env).1.enable_sampling = m.enable_sampling ∧
    (m.trigger_self_healing env).1.average_score = m.average_score ∧
    (m.trigger_self_healing env).1.sampling_manager = m.sampling_manager := by
  obtain ⟨scan, heal, pf⟩ := env
  cases scan <;> cases heal <;> cases pf <;>
    simp [AgentMonitor.trigger_self_healing] <;>
    split_ifs <;> simp

theorem check_self_healing_preserves (m : AgentMonitor) (now : ℚ)
    (env : HealEnv) :
    (m.check_self_healing now env).interaction_count = m.interaction_count ∧
    (m.check_self_healing now env).enable_sampling = m.enable_sampling := by
  unfold AgentMonitor.check_self_healing
  split_ifs
  · have h := trigger_self_healing_preserves
      { m with last_healing_check := some now } env
    exact ⟨h.1, h.2.1⟩
  · exact ⟨rfl, rfl⟩

theorem report_performance_201 (m : AgentMonitor) (p : PerfResponse)
    (h : p.status_code = 201) :
    (m.report_performance (some p)).2.interaction_count =
      m.interaction_count + 1 ∧
    (m.report_performance (some p)).2.enable_sampling = m.enable_sampling := by
  simp only [AgentMonitor.report_performance, h, if_pos]
  split_ifs <;> simp

/-- C4 counterexample: one `generate_response` call whose performance
report comes back with HTTP 500 leaves `interaction_count` at 0: the
counter is incremented only on HTTP 201. -/
theorem C4_counterexample :
    (mon0.run_generate
      [some { status_code := 500, quality_score := none }]).interaction_count
      = 0 ∧
    (mon0.run_generate
      [some { status_code := 500, quality_score := none }]).interaction_count
      ≠ mon0.interaction_count + 1 := by
  refine ⟨by decide, by decide⟩

/-- C4 (amended): with sampling disabled, N `generate_response` calls
raise `interaction_count` by exactly N provided every performance report
completes with HTTP 201 (in async mode, counting after the queued
reports have completed); a report that fails or returns any other
status does not increment the counter. -/
theorem C4_interaction_count (m : AgentMonitor)
    (reports : List (Option PerfResponse))
    (hs : m.enable_sampling = false)
    (h : ∀ r ∈ reports, ∃ p, r = some p ∧ p.status_code = 201) :
    (m.run_generate reports).interaction_count =
      m.interaction_count + reports.length := by
  induction reports generalizing m with
  | nil => simp [AgentMonitor.run_generate]
  | cons r rs ih =>
    obtain ⟨p, rfl, hp⟩ := h r (List.mem_cons_self _ _)
    have hgen : m.generate_response "p"
        { model_result := .ok "resp", report := some p, batch := none
          heal_env := { scan := none, heal := none, prompt_fetch := none } }
        0 0 0 0 =
        .ok ("resp", ((m.report_performance (some p)).2).check_self_healing
          0 { scan := none, heal := none, prompt_fetch := none }) := by
      simp [AgentMonitor.generate_response, hs]
    have hstep : m.run_generate (some p :: rs) =
        (((m.report_performance (some p)).2).check_self_healing
          0 { scan := none, heal := none, prompt_fetch := none }).run_generate
          rs := by
      simp [AgentMonitor.run_generate, hgen]
    set m1 := ((m.report_performance (some p)).2).check_self_healing
      0 { scan := none, heal := none, prompt_fetch := none } with hm1
    have hrep := report_performance_201 m p hp
    have hchk := check_self_healing_preserves
      ((m.report_performance (some p)).2) 0
      { scan := none, heal := none, prompt_fetch := none }
    have hc1 : m1.interaction_count = m.interaction_count + 1 := by
      rw [hm1, hchk.1, hrep.1]
    have hs1 : m1.enable_sampling = false := by
      rw [hm1, hchk.2, hrep.2, hs]
    rw [hstep, ih m1 hs1 (fun r hr => h r (List.mem_cons_of_mem _ hr)), hc1]
    simp [List.length_cons]
    omega

theorem C4_interaction_count_witness :
    (mon0.run_generate
      [some { status_code := 201, quality_score := some 90 },
        some { status_code := 201, quality_score := some 70 }]).interaction_count
      = 2 :=
  C4_interaction_count mon0
    [some { status_code := 201, quality_score := some 90 },
      some { status_code := 201, quality_score := some 70 }]
    rfl (by decide)

/-- C10: a successful (HTTP 201) single report whose `quality_score` is
absent or 0 still increments `interaction_count` but leaves
`average_score` untouched; a batch response whose `average_score` is
absent or 0 does not overwrite the running average. -/
theorem C10_falsy_scores_skipped (m : AgentMonitor) (q b : Option ℚ)
    (hq : q = none ∨ q = some 0) (hb : b = none ∨ b = some 0) :
    (m.report_performance
      (some { status_code := 201, quality_score := q })).2.interaction_count
      = m.interaction_count + 1 ∧
    (m.report_performance
      (some { status_code := 201, quality_score := q })).2.average_score
      = m.average_score ∧
    (m.send_batch
      (some { status_code := 201, average_score := b })).average_score
      = m.average_score := by
  have hq' : qTruthy q = false := by
    rcases hq with h | h <;> simp [h, qTruthy]
  have hb' : qTruthy b = false := by
    rcases hb with h | h <;> simp [h, qTruthy]
  refine ⟨?_, ?_, ?_⟩
  · simp [AgentMonitor.report_performance, hq']
  · simp [AgentMonitor.report_performance, hq']
  · cases hsm : m.sampling_manager with
    | none => simp [AgentMonitor.send_batch, hsm]
    | some sm =>
      simp only [AgentMonitor.send_batch, hsm, hb']
      split_ifs <;> simp_all

theorem C10_falsy_scores_skipped_witness :
    (mon0.report_performance
      (some { status_code := 201, quality_score := none })).2.interaction_count
      = mon0.interaction_count + 1 ∧
    (mon0.report_performance
      (some { status_code := 201, quality_score := none })).2.average_score
      = mon0.average_score ∧
    (mon0.send_batch
      (some { status_code := 201, average_score := some 0 })).average_score
      = mon0.average_score :=
  C10_falsy_scores_skipped mon0 none (some 0) (Or.inl rfl) (Or.inr rfl)

/-- C5: in the self-healing workflow, (a) when the scan does not flag
this agent the system prompt is unchanged and the heal endpoint is never
called; (b) when the agent is flagged, auto healing is on and the heal
response reports `prompt_updated`, the dedicated prompt endpoint is
fetched and the system prompt is replaced with its returned value;
(c) when auto healing is off and the heal response carries a
`suggested_prompt`, the system prompt is set to it directly and the
fetch endpoint is not called. -/
theorem C5_healing_flow (m : AgentMonitor) (env : HealEnv) :
    ((∀ scan, env.scan = some scan → scan.status_code = 200 →
        m.agent_id ∉ scan.agents_flagged) →
      (m.trigger_self_healing env).1.system_prompt = m.system_prompt ∧
      (m.trigger_self_healing env).2.1 = false) ∧
    (∀ scan heal pr p, env.scan = some scan → scan.status_code = 200 →
      m.agent_id ∈ scan.agents_flagged → m.auto_healing = true →
      env.heal = some heal → heal.status_code = 200 →
      heal.prompt_updated = true →
      env.prompt_fetch = some pr → pr.status_code = 200 →
      pr.system_prompt = some p → p ≠ "" →
      (m.trigger_self_healing env).1.system_prompt = some p ∧
      (m.trigger_self_healing env).2.2 = true) ∧
    (∀ scan heal p, env.scan = some scan → scan.status_code = 200 →
      m.agent_id ∈ scan.agents_flagged → m.auto_healing = false →
      env.heal = some heal → heal.status_code = 200 →
      heal.suggested_prompt = some p → p ≠ "" →
      (m.trigger_self_healing env).1.system_prompt = some p ∧
      (m.trigger_self_healing env).2.1 = true ∧
      (m.trigger_self_healing env).2.2 = false) := by
  refine ⟨?_, ?_, ?_⟩
  · intro hnot
    cases hscan : env.scan with
    | none => simp [AgentMonitor.trigger_self_healing, hscan]
    | some scan =>
      by_cases hst : scan.status_code = 200
      · have hmem : m.agent_id ∉ scan.agents_flagged := hnot scan hscan hst
        simp [AgentMonitor.trigger_self_healing, hscan, hst, hmem]
      · simp [AgentMonitor.trigger_self_healing, hscan, hst]
  · intro scan heal pr p hscan hst hmem hauto hheal hhst hupd hpf hpst hps hp
    simp [AgentMonitor.trigger_self_healing, hscan, hst, hmem, hheal, hhst,
      hauto, hupd, hpf, hpst, hps, strTruthy, hp]
  · intro scan heal p hscan hst hmem hauto hheal hhst hsug hp
    simp [AgentMonitor.trigger_self_healing, hscan, hst, hmem, hheal, hhst,
      hauto, hsug, strTruthy, hp]

/-- A healing environment that flags agent-1 and answers the heal and
prompt-fetch calls. -/
def c5_env : HealEnv :=
  { scan := some { status_code := 200, agents_flagged := ["agent-1"] }
    heal := some { status_code := 200, prompt_updated := true
                   suggested_prompt := none }
    prompt_fetch := some { status_code := 200, system_prompt := some "better" } }

theorem C5_healing_flow_witness :
    (mon0.trigger_self_healing c5_env).1.system_prompt = some "better" ∧
    (mon0.trigger_self_healing c5_env).2.2 = true :=
  (C5_healing_flow mon0 c5_env).2.1 _ _ _ "better" rfl rfl (by decide) rfl
    rfl rfl rfl rfl rfl rfl (by decide)

/-- C9: monitoring failures are absorbed: `generate_response` fails
exactly when the injected model call fails (with that same error,
including the not-implemented one), succeeds with the model response for
every combination of reporting/healing outcomes, and the advisory reads
return an empty mapping instead of raising on any non-200 outcome or
exception. -/
theorem C9_monitoring_failures_absorbed (m : AgentMonitor) (prompt : String)
    (env : MonitorEnv) (today : Nat) (draw now : ℚ) (rt : Nat) :
    (∀ e, m.generate_response prompt env today draw now rt = .error e ↔
      env.model_result = .error e) ∧
    (∀ resp, env.model_result = .ok resp →
      ∃ m2, m.generate_response prompt env today draw now rt =
        .ok (resp, m2)) ∧
    (∀ r : GetResponse, r.status_code ≠ 200 →
      m.get_health_status (some r) = [] ∧ m.get_analytics (some r) = [] ∧
      m.get_insights (some r) = []) ∧
    (m.get_health_status none = [] ∧ m.get_analytics none = [] ∧
      m.get_insights none = []) := by
  refine ⟨?_, ?_, ?_, ⟨rfl, rfl, rfl⟩⟩
  · intro e
    cases hm : env.model_result with
    | error e2 => simp [AgentMonitor.generate_response, hm]
    | ok resp => simp [AgentMonitor.generate_response, hm]
  · intro resp hm
    refine ⟨((if m.enable_sampling then
        m.handle_sampled_reporting
          { agent_id := m.agent_id, prompt := prompt, response := resp
            response_time_ms := rt } today draw env.batch
      else (m.report_performance env.report).2).check_self_healing
        now env.heal_env), ?_⟩
    simp [AgentMonitor.generate_response, hm]
  · intro r hr
    exact ⟨by simp [AgentMonitor.get_health_status, hr],
      by simp [AgentMonitor.get_analytics, hr],
      by simp [AgentMonitor.get_insights, hr]⟩

/-- An environment where every monitoring call fails: the report returns
HTTP 500 and the scan raises. -/
def c9_env : MonitorEnv :=
  { model_result := .ok "hi"
    report := some { status_code := 500, quality_score := none }
    batch := none
    heal_env := { scan := none, heal := none, prompt_fetch := none } }

theorem C9_monitoring_failures_absorbed_witness :
    (mon0.generate_response "p" c9_env 0 0 0 0).isOk = true ∧
    mon0.get_health_status
      (some { status_code := 503, body := [("a", "b")] }) = [] := by
  obtain ⟨m2, hm⟩ :=
    (C9_monitoring_failures_absorbed mon0 "p" c9_env 0 0 0 0).2.1 "hi" rfl
  exact ⟨by rw [hm]; rfl,
    ((C9_monitoring_failures_absorbed mon0 "p" c9_env 0 0 0 0).2.2.1
      { status_code := 503, body := [("a", "b")] } (by decide)).1⟩

/-! ### REST client (EnableAIClient._make_request of client.py) -/

/-- Outcome of the underlying `session.request` call: a raised
`RequestException`, or a response with its status code, raw body text
and parsed JSON object (modelled as a flat field list). -/
inductive HttpResult where
  | network_error (msg : String)
  | response (status_code : Nat) (text : String)
      (body : List (String × String))
deriving DecidableEq

/-- The failures `_make_request` can raise.  In the Python code
`paymentRequiredError`, `genericApiError` and `transportError` are all
raised as the base class `EnableAIError`, distinguished only by their
message; the other three constructors are its dedicated subclasses. -/
inductive ApiError where
  | authenticationError (msg : String)
  | validationError (msg : String)
  | paymentRequiredError (msg : String)
  | rateLimitError (msg : String)
  | genericApiError (status_code : Nat) (msg : String)
  | transportError (msg : String)
deriving DecidableEq

/-- `EnableAIClient._make_request`.  The 400/402/generic branches raise
inside a try block whose bare except catches that very raise, so the
message built from the parsed `error` field is always discarded in
favour of the one built from the raw body text; the body only reaches
the caller on a non-empty 2xx response. -/
def make_request (r : HttpResult) :
    Except ApiError (List (String × String)) :=
  match r with
  | .network_error msg => .error (.transportError ("Network error: " ++ msg))
  | .response code text body =>
    if code = 401 then
      .error (.authenticationError "Invalid API key or authentication failed")
    else if code = 400 then
      .error (.validationError ("Validation error: " ++ text))
    else if code = 402 then
      .error (.paymentRequiredError ("Payment required: " ++ text))
    else if code = 429 then .error (.rateLimitError "Rate limit exceeded")
    else if 400 ≤ code then
      .error (.genericApiError code
        ("API error " ++ toString code ++ ": " ++ text))
    else if code = 204 ∨ text = "" then .ok []
    else .ok body

/-- Whether a request outcome is the generic-API-failure kind. -/
def is_generic_api_failure : Except ApiError (List (String × String)) → Bool
  | .error (.genericApiError _ _) => true
  | _ => false

/-- C8 counterexample: HTTP 402 is not mapped to the generic API
failure: it takes the dedicated payment-required branch. -/
theorem C8_counterexample :
    make_request (.response 402 "quota exceeded" []) =
      .error (.paymentRequiredError "Payment required: quota exceeded") ∧
    is_generic_api_failure (make_request (.response 402 "quota exceeded" []))
      = false := by
  exact ⟨rfl, rfl⟩

/-- C8 (amended): the request primitive maps 401 to an authentication
failure, 400 to a validation failure carrying the server-supplied body
text, 402 to a payment-required failure, 429 to a rate-limited failure,
any other status ≥ 400 (e.g. 500) to a generic API failure, and a
network failure to a transport failure; a 204 or empty-body response
yields an empty mapping. -/
theorem C8_error_mapping (code : Nat) (text msg : String)
    (body : List (String × String)) :
    (make_request (.response 401 text body) =
      .error (.authenticationError
        "Invalid API key or authentication failed")) ∧
    (make_request (.response 400 text body) =
      .error (.validationError ("Validation error: " ++ text))) ∧
    (make_request (.response 402 text body) =
      .error (.paymentRequiredError ("Payment required: " ++ text))) ∧
    (make_request (.response 429 text body) =
      .error (.rateLimitError "Rate limit exceeded")) ∧
    (400 ≤ code → code ≠ 400 → code ≠ 401 → code ≠ 402 → code ≠ 429 →
      make_request (.response code text body) =
        .error (.genericApiError code
          ("API error " ++ toString code ++ ": " ++ text))) ∧
    (make_request (.network_error msg) =
      .error (.transportError ("Network error: " ++ msg))) ∧
    (code < 400 → make_request (.response code "" body) = .ok []) ∧
    (make_request (.response 204 text body) = .ok []) ∧
    (code < 400 → code ≠ 204 → text ≠ "" →
      make_request (.response code text body) = .ok body) := by
  refine ⟨rfl, rfl, rfl, rfl, ?_, rfl, ?_, ?_, ?_⟩
  · intro h400 h1 h2 h3 h4
    simp [make_request, h1, h2, h3, h4, h400]
  · intro hlt
    have n1 : code ≠ 401 := by omega
    have n2 : code ≠ 400 := by omega
    have n3 : code ≠ 402 := by omega
    have n4 : code ≠ 429 := by omega
    have n5 : ¬ 400 ≤ code := by omega
    simp [make_request, n1, n2, n3, n4, n5]
  · have n5 : ¬ 400 ≤ 204 := by omega
    simp [make_request, n5]
  · intro hlt h204 htext
    have n1 : code ≠ 401 := by omega
    have n2 : code ≠ 400 := by omega
    have n3 : code ≠ 402 := by omega
    have n4 : code ≠ 429 := by omega
    have n5 : ¬ 400 ≤ code := by omega
    simp [make_request, n1, n2, n3, n4, n5, h204, htext]

theorem C8_error_mapping_witness :
    make_request (.response 500 "boom" []) =
      .error (.genericApiError 500
        ("API error " ++ toString 500 ++ ": " ++ "boom")) ∧
    make_request (.response 200 "" []) = .ok [] :=
  ⟨(C8_error_mapping 500 "boom" "x" []).2.2.2.2.1 (by norm_num)
      (by norm_num) (by norm_num) (by norm_num) (by norm_num),
    (C8_error_mapping 200 "" "x" []).2.2.2.2.2.2.1 (by norm_num)⟩

end EnableAI
